import Mathlib

/-!
Verification of the rp2350-psram-test repository against its specification.

The repository's `src/main.rs` declares `mod psram;` and calls
`psram::psram_init`, but the file `psram.rs` itself is not present in the
provided sources.  Definitions in the `Psram` namespace are therefore
modelled from the spec (sections 2, 4, 7 of spec.md); definitions in the
`Main` namespace are a direct shallow embedding of the straight-line code
of `main` in `src/main.rs`.
-/

namespace Psram

/-- Modelled from the spec: a Device Descriptor is a compiled-in record
mapping an identifier byte sequence to device family parameters
(spec section 3, "Device Descriptor"): capacity in bytes, maximum rated
clock, fast-read command opcode.  The concrete table contents are not
observable from the provided material (spec section 9 open question), so
the descriptor table stays a parameter of the model. -/
structure DeviceDescriptor where
  idBytes : List Nat
  capacityBytes : Nat
  maxClockHz : Nat
  fastReadOpcode : Nat
deriving DecidableEq

/-- Modelled from the spec: test whether the descriptor's identifier byte
sequence matches the start of the captured identifier bytes. -/
def idMatches : List Nat → List Nat → Bool
  | [], _ => true
  | _ :: _, [] => false
  | p :: ps, b :: bs => p == b && idMatches ps bs

/-- Modelled from the spec (section 4.2): compare captured identifier
bytes against the descriptor table using longest-pattern match over the
matching entries, first match winning among equal lengths. -/
def lookupDevice (table : List DeviceDescriptor) (idBytes : List Nat) :
    Option DeviceDescriptor :=
  (table.filter (fun d => idMatches d.idBytes idBytes)).foldl
    (fun best d =>
      match best with
      | none => some d
      | some b => if b.idBytes.length < d.idBytes.length then some d else some b)
    none

/-- Modelled from the spec: the physically addressable window reserved for
one XIP chip-select line by the host architecture (16 MiB per chip-select
on the RP2350 XIP address map; the CS1 window starts at 0x11000000 in
`src/main.rs`). -/
def CS_WINDOW_SIZE : Nat := 16 * 1024 * 1024

/-- Modelled from the spec (section 3, Bus Timing Parameters): clock
divider derived from the system clock frequency and a maximum supported
clock, rounding up so the effective bus clock never exceeds the maximum;
at least 1 so the division is meaningful. -/
def clockDivider (freqHz maxClockHz : Nat) : Nat :=
  max 1 ((freqHz + maxClockHz - 1) / maxClockHz)

/-- Effective bus clock produced by a divider setting (integer division of
the system clock by the divider). -/
def effectiveClock (freqHz divider : Nat) : Nat := freqHz / divider

/-- Modelled from the spec: largest divider value the controller's divisor
field can hold (8-bit field). -/
def MAX_CLK_DIVIDER : Nat := 255

/-- Modelled from the spec: conservative clock ceiling used for the
known-safe baseline configuration of phase 1 (single-lane, low clock). -/
def SAFE_PROBE_CLOCK_HZ : Nat := 1000000

/-- Modelled from the spec: worst-case settle time after the
exit-deep-power-down command, in microseconds (device class worst case). -/
def EXIT_PDN_SETTLE_US : Nat := 150

/-- Modelled from the spec: worst-case settle time after the reset
command, in microseconds (device class worst case). -/
def RESET_SETTLE_US : Nat := 50

/-- Fixed upper bound on every settle delay the initialization performs. -/
def MAX_SETTLE_US : Nat := 150

/-- Transfer mode of the controller for the PSRAM chip-select line. -/
inductive BusMode
  | serialBaseline
  | fastQuad
deriving DecidableEq

/-- Controller configuration state for the PSRAM chip-select line: the
transfer mode, the clock divider, and the programmed address-decode
window length in bytes. -/
structure ControllerState where
  mode : BusMode
  divider : Nat
  windowLenBytes : Nat
deriving DecidableEq

/-- Modelled from the spec (section 4.1): the known-safe baseline
configuration established by phase 1 — single-lane serial mode, a
conservative divider, no address window programmed yet. -/
def baselineState (freqHz : Nat) : ControllerState :=
  { mode := BusMode.serialBaseline
  , divider := clockDivider freqHz SAFE_PROBE_CLOCK_HZ
  , windowLenBytes := 0 }

/-- Command bytes exchanged with the memory device over the serial bus
(spec section 6). -/
inductive BusCmd
  | exitPowerDown
  | resetDevice
  | readId
  | enterQuadMode
deriving DecidableEq

/-- Observable actions performed by the initialization, in order:
register writes, bus commands and bounded settle delays. -/
inductive PsramEvent
  | configBaseline (divider : Nat)
  | cmd (c : BusCmd)
  | settleDelayUs (us : Nat)
  | configFast (opcode : Nat) (divider : Nat)
  | setWindowLen (bytes : Nat)
deriving DecidableEq

/-- Fatal halt diagnostics of the initialization (spec section 7). -/
inductive PsramHalt
  | deviceNotFound
  | timingConstraintViolated
deriving DecidableEq

/-- Result of running the initialization: the event trace, the final
controller state, and either a fatal halt diagnostic or the usable
capacity in bytes. -/
structure PsramInitResult where
  events : List PsramEvent
  finalState : ControllerState
  outcome : Except PsramHalt Nat

/-- Modelled from the spec: the three-phase body of `psram::psram_init`
(`psram.rs` is referenced by `mod psram;` in `src/main.rs` but absent
from the provided sources).  Phase 1 programs the safe baseline, phase 2
issues the reset/unlock sequence and reads the identifier, phase 3
reprograms the controller for fast quad mode, clamps the capacity to the
chip-select window and returns it.  The identifier bytes the device
answers with are a parameter of the model. -/
def psram_init (freqHz : Nat) (table : List DeviceDescriptor)
    (idBytesRead : List Nat) : PsramInitResult :=
  let st1 := baselineState freqHz
  let probeEvents : List PsramEvent :=
    [ PsramEvent.configBaseline st1.divider
    , PsramEvent.cmd BusCmd.exitPowerDown
    , PsramEvent.settleDelayUs EXIT_PDN_SETTLE_US
    , PsramEvent.cmd BusCmd.resetDevice
    , PsramEvent.settleDelayUs RESET_SETTLE_US
    , PsramEvent.cmd BusCmd.readId ]
  match lookupDevice table idBytesRead with
  | none =>
      { events := probeEvents
      , finalState := st1
      , outcome := Except.error PsramHalt.deviceNotFound }
  | some d =>
      let fdiv := clockDivider freqHz d.maxClockHz
      if MAX_CLK_DIVIDER < fdiv then
        { events := probeEvents
        , finalState := st1
        , outcome := Except.error PsramHalt.timingConstraintViolated }
      else
        let cap := min d.capacityBytes CS_WINDOW_SIZE
        { events := probeEvents ++
            [ PsramEvent.cmd BusCmd.enterQuadMode
            , PsramEvent.configFast d.fastReadOpcode fdiv
            , PsramEvent.setWindowLen cap ]
        , finalState :=
            { mode := BusMode.fastQuad, divider := fdiv, windowLenBytes := cap }
        , outcome := Except.ok cap }

/-- Events belonging to the phase-3 high-speed remap: entering quad mode,
programming the fast read format, programming the address window. -/
def isRemapEvent : PsramEvent → Bool
  | PsramEvent.cmd BusCmd.enterQuadMode => true
  | PsramEvent.configFast _ _ => true
  | PsramEvent.setWindowLen _ => true
  | _ => false

/-- Recognizer for settle-delay events. -/
def isSettleDelay : PsramEvent → Bool
  | PsramEvent.settleDelayUs _ => true
  | _ => false

/-- Recognizer for the read-identifier command. -/
def isReadIdCmd : PsramEvent → Bool
  | PsramEvent.cmd BusCmd.readId => true
  | _ => false

/-- An event is a settle delay within the fixed worst-case bound, or not
a delay at all. -/
def delayBounded : PsramEvent → Bool
  | PsramEvent.settleDelayUs us => us ≤ MAX_SETTLE_US
  | _ => true

/-- Sample descriptor table for concrete evaluation, from the spec's
end-to-end scenario (section 8): one known device family with a short
identifier byte sequence and 8 MiB capacity, rated at 133 MHz. -/
def sampleTable : List DeviceDescriptor :=
  [ { idBytes := [0x0D, 0x5D]
    , capacityBytes := 8 * 1024 * 1024
    , maxClockHz := 133000000
    , fastReadOpcode := 0xEB } ]

end Psram

namespace Main

/-- Pin functions that `main` multiplexes pins into (`src/main.rs`
lines 95 and 109). -/
inductive PinFunction
  | xipCs1
  | sioOutput
deriving DecidableEq

/-- Source of the clock-frequency argument of the `psram_init` call
(`src/main.rs` line 97: `clocks.peripheral_clock.freq().to_Hz()`). -/
inductive FreqArgSource
  | peripheralClockHz
deriving DecidableEq

/-- Provenance of a register-block argument (`src/main.rs` line 61:
`hal::pac::Peripherals::take().unwrap()`). -/
inductive RegArgSource
  | peripheralsTakeSingleton
deriving DecidableEq

/-- Rust argument-passing mode at a call site. -/
inductive PassMode
  | byValue
  | byExclusiveBorrow
  | bySharedBorrow
deriving DecidableEq

/-- A register-block argument: where its value comes from and how it is
passed at the call site. -/
structure RegArg where
  source : RegArgSource
  pass : PassMode
deriving DecidableEq

/-- Shape of the `psram::psram_init` call site. -/
structure PsramInitCall where
  freqSource : FreqArgSource
  qmi : RegArg
  xipCtrl : RegArg
deriving DecidableEq

/-- Transcription of the call at `src/main.rs` lines 96-100:
`psram::psram_init(clocks.peripheral_clock.freq().to_Hz(), &pac.QMI,
&pac.XIP_CTRL)`.  Both register blocks are fields of the `pac` value
obtained from `Peripherals::take()` and are passed as `&` shared
references. -/
def psramInitCallSite : PsramInitCall :=
  { freqSource := FreqArgSource.peripheralClockHz
  , qmi := { source := RegArgSource.peripheralsTakeSingleton
           , pass := PassMode.bySharedBorrow }
  , xipCtrl := { source := RegArgSource.peripheralsTakeSingleton
               , pass := PassMode.bySharedBorrow } }

/-- State of the global allocator object. -/
inductive HeapState
  | empty
  | initialized (base : Nat) (sizeBytes : Nat)
deriving DecidableEq

/-- Transcription of `static ALLOCATOR: Heap = Heap::empty()`
(`src/main.rs` lines 22-23): the allocator's state at program start. -/
def ALLOCATOR : HeapState := HeapState.empty

/-- Steps of `main` (`src/main.rs` lines 61-123), in program order. -/
inductive MainStep
  | takePeripherals
  | watchdogNew
  | initClocksAndPlls
  | timerNew
  | sioNew
  | pinsNew
  | setPinFunction (gpio : Nat) (f : PinFunction)
  | callPsramInit (c : PsramInitCall)
  | allocatorInit (base : Nat) (sizeBytes : Nat)
  | vecNew
  | heapAlloc
  | ledSetHigh
  | ledSetLow
  | timerDelayMs
deriving DecidableEq

/-- Straight-line prefix of `main` before the blink loop (`src/main.rs`
lines 61-112), parameterized by the value `psram_size` returned by
`psram_init`.  `ALLOCATOR.init(PSRAM_ADDRESS, psram_size as usize)` uses
the constant 0x11000000 and the returned size unmodified (`as usize` is
a lossless widening of a `u32` on this 32-bit target); `Vec::new()`
performs no allocation, so the first heap allocation is `xs.push(1)` at
line 112. -/
def mainPrologue (psramSize : Nat) : List MainStep :=
  [ MainStep.takePeripherals
  , MainStep.watchdogNew
  , MainStep.initClocksAndPlls
  , MainStep.timerNew
  , MainStep.sioNew
  , MainStep.pinsNew
  , MainStep.setPinFunction 47 PinFunction.xipCs1
  , MainStep.callPsramInit psramInitCallSite
  , MainStep.allocatorInit 0x11000000 psramSize
  , MainStep.setPinFunction 25 PinFunction.sioOutput
  , MainStep.vecNew
  , MainStep.heapAlloc ]

/-- Body of the infinite blink loop (`src/main.rs` lines 115-123),
repeated forever after the prologue. -/
def mainLoopBody : List MainStep :=
  [ MainStep.ledSetHigh
  , MainStep.timerDelayMs
  , MainStep.heapAlloc
  , MainStep.ledSetLow
  , MainStep.timerDelayMs
  , MainStep.heapAlloc ]

/-- Recognizer for the `psram_init` call step. -/
def isPsramCall : MainStep → Bool
  | MainStep.callPsramInit _ => true
  | _ => false

/-- Recognizer for the `ALLOCATOR.init` step. -/
def isAllocInit : MainStep → Bool
  | MainStep.allocatorInit _ _ => true
  | _ => false

/-- Recognizer for heap-allocating steps. -/
def isHeapAlloc : MainStep → Bool
  | MainStep.heapAlloc => true
  | _ => false

/-- Recognizer for the `init_clocks_and_plls` step. -/
def isClocksInit : MainStep → Bool
  | MainStep.initClocksAndPlls => true
  | _ => false

/-- Recognizer for the step multiplexing GPIO47 to the XIP CS1
function (`src/main.rs` line 95). -/
def isXipCs1PinSetup : MainStep → Bool
  | MainStep.setPinFunction 47 PinFunction.xipCs1 => true
  | _ => false

/-- Steps of `main` that access the QMI or XIP_CTRL controller register
blocks: in `src/main.rs` the only mentions of `pac.QMI` and
`pac.XIP_CTRL` are the arguments of the `psram_init` call. -/
def accessesControllerRegs : MainStep → Bool
  | MainStep.callPsramInit _ => true
  | _ => false

end Main

/-- Rounding the divider up guarantees the divided clock stays at or
below the requested ceiling. -/
theorem Psram.effectiveClock_clockDivider_le (freqHz m : Nat) (hm : 0 < m) :
    Psram.effectiveClock freqHz (Psram.clockDivider freqHz m) ≤ m := by
  unfold Psram.effectiveClock Psram.clockDivider
  have hqr := Nat.div_add_mod (freqHz + m - 1) m
  have hr : (freqHz + m - 1) % m < m := Nat.mod_lt _ hm
  have hfq : freqHz ≤ m * ((freqHz + m - 1) / m) := by omega
  have hfd : freqHz ≤ m * max 1 ((freqHz + m - 1) / m) :=
    le_trans hfq (Nat.mul_le_mul_left m (le_max_right 1 _))
  have hd : 0 < max 1 ((freqHz + m - 1) / m) := le_max_left 1 _
  calc freqHz / max 1 ((freqHz + m - 1) / m)
      ≤ (max 1 ((freqHz + m - 1) / m) * m) / max 1 ((freqHz + m - 1) / m) :=
        Nat.div_le_div_right (by rw [Nat.mul_comm]; exact hfd)
    _ = m := Nat.mul_div_cancel_left m hd

/-- C1: for every device descriptor D matched by the identifier bytes,
the capacity returned by `psram_init` equals D's declared capacity
clamped to the physically addressable chip-select window, and never
exceeds that window. -/
theorem psram_init_capacity_clamped (freqHz : Nat)
    (table : List Psram.DeviceDescriptor) (idBytes : List Nat)
    (d : Psram.DeviceDescriptor)
    (hd : Psram.lookupDevice table idBytes = some d)
    (hdiv : Psram.clockDivider freqHz d.maxClockHz ≤ Psram.MAX_CLK_DIVIDER) :
    (Psram.psram_init freqHz table idBytes).outcome =
      Except.ok (min d.capacityBytes Psram.CS_WINDOW_SIZE) ∧
    min d.capacityBytes Psram.CS_WINDOW_SIZE ≤ Psram.CS_WINDOW_SIZE := by
  refine ⟨?_, min_le_right _ _⟩
  unfold Psram.psram_init
  rw [hd]
  simp only
  rw [if_neg (by omega)]

/-- C1 witness: the spec's end-to-end scenario, an 8 MiB device matched
by its identifier bytes at a 133 MHz system clock. -/
theorem psram_init_capacity_clamped_witness :
    (Psram.psram_init 133000000 Psram.sampleTable [13, 93, 82]).outcome =
      Except.ok (min (8 * 1024 * 1024) Psram.CS_WINDOW_SIZE) ∧
    min (8 * 1024 * 1024) Psram.CS_WINDOW_SIZE ≤ Psram.CS_WINDOW_SIZE :=
  psram_init_capacity_clamped 133000000 Psram.sampleTable [13, 93, 82]
    { idBytes := [13, 93], capacityBytes := 8 * 1024 * 1024
    , maxClockHz := 133000000, fastReadOpcode := 235 }
    (by decide) (by decide)

/-- C2: for every clock frequency and every device descriptor selected by
the probe, the divider computed by the initialization yields an effective
bus clock at or below that device's maximum rated clock. -/
theorem psram_init_divider_respects_max (freqHz : Nat)
    (table : List Psram.DeviceDescriptor) (idBytes : List Nat)
    (d : Psram.DeviceDescriptor)
    (hd : Psram.lookupDevice table idBytes = some d)
    (hm : 0 < d.maxClockHz)
    (hdiv : Psram.clockDivider freqHz d.maxClockHz ≤ Psram.MAX_CLK_DIVIDER) :
    (Psram.psram_init freqHz table idBytes).finalState.divider =
      Psram.clockDivider freqHz d.maxClockHz ∧
    Psram.effectiveClock freqHz
        (Psram.psram_init freqHz table idBytes).finalState.divider ≤
      d.maxClockHz := by
  have hst : (Psram.psram_init freqHz table idBytes).finalState.divider =
      Psram.clockDivider freqHz d.maxClockHz := by
    unfold Psram.psram_init
    rw [hd]
    simp only
    rw [if_neg (by omega)]
  refine ⟨hst, ?_⟩
  rw [hst]
  exact Psram.effectiveClock_clockDivider_le freqHz d.maxClockHz hm

/-- C2 witness: the 8 MiB sample device at a 133 MHz system clock. -/
theorem psram_init_divider_respects_max_witness :
    (Psram.psram_init 133000000 Psram.sampleTable [13, 93, 82]).finalState.divider =
      Psram.clockDivider 133000000 133000000 ∧
    Psram.effectiveClock 133000000
        (Psram.psram_init 133000000 Psram.sampleTable [13, 93, 82]).finalState.divider ≤
      133000000 :=
  psram_init_divider_respects_max 133000000 Psram.sampleTable [13, 93, 82]
    { idBytes := [13, 93], capacityBytes := 8 * 1024 * 1024
    , maxClockHz := 133000000, fastReadOpcode := 235 }
    (by decide) (by decide) (by decide)

/-- C3: when the identifier bytes match no table entry, initialization
halts with the DeviceNotFound diagnostic, the controller stays in the
phase-1 safe baseline configuration, the event trace contains no
high-speed remap action, and the identifier is read exactly once (no
retry). -/
theorem psram_init_device_not_found (freqHz : Nat)
    (table : List Psram.DeviceDescriptor) (idBytes : List Nat)
    (h : Psram.lookupDevice table idBytes = none) :
    (Psram.psram_init freqHz table idBytes).outcome =
      Except.error Psram.PsramHalt.deviceNotFound ∧
    (Psram.psram_init freqHz table idBytes).finalState =
      Psram.baselineState freqHz ∧
    ((Psram.psram_init freqHz table idBytes).events.all
      (fun e => !Psram.isRemapEvent e)) = true ∧
    (Psram.psram_init freqHz table idBytes).events.countP
      (fun e => Psram.isReadIdCmd e) = 1 := by
  unfold Psram.psram_init
  rw [h]
  exact ⟨rfl, rfl, rfl, rfl⟩

/-- C3 witness: a floating bus answering all-0xFF identifier bytes
matches no entry of the sample table. -/
theorem psram_init_device_not_found_witness :
    (Psram.psram_init 133000000 Psram.sampleTable [255, 255, 255]).outcome =
      Except.error Psram.PsramHalt.deviceNotFound ∧
    (Psram.psram_init 133000000 Psram.sampleTable [255, 255, 255]).finalState =
      Psram.baselineState 133000000 ∧
    ((Psram.psram_init 133000000 Psram.sampleTable [255, 255, 255]).events.all
      (fun e => !Psram.isRemapEvent e)) = true ∧
    (Psram.psram_init 133000000 Psram.sampleTable [255, 255, 255]).events.countP
      (fun e => Psram.isReadIdCmd e) = 1 :=
  psram_init_device_not_found 133000000 Psram.sampleTable [255, 255, 255]
    (by decide)

/-- C6: the initialization always terminates: its event trace is a fixed
finite sequence (at most nine events), every wait it contains is a settle
delay bounded by the fixed worst case, and an identifier matching no
entry (absent or non-responsive device) resolves to the fatal
DeviceNotFound outcome instead of hanging. -/
theorem psram_init_terminates_bounded (freqHz : Nat)
    (table : List Psram.DeviceDescriptor) (idBytes : List Nat) :
    (Psram.psram_init freqHz table idBytes).events.length ≤ 9 ∧
    ((Psram.psram_init freqHz table idBytes).events.all
      Psram.delayBounded) = true ∧
    (Psram.lookupDevice table idBytes = none →
      (Psram.psram_init freqHz table idBytes).outcome =
        Except.error Psram.PsramHalt.deviceNotFound) := by
  unfold Psram.psram_init
  cases h : Psram.lookupDevice table idBytes with
  | none => exact ⟨by simp, rfl, fun _ => rfl⟩
  | some d =>
      simp only
      split
      · exact ⟨by simp, rfl, fun hc => Option.noConfusion hc⟩
      · exact ⟨by simp, rfl, fun hc => Option.noConfusion hc⟩

/-- C6 witness: concrete run on the sample table with a floating bus. -/
theorem psram_init_terminates_bounded_witness :
    (Psram.psram_init 133000000 Psram.sampleTable [255, 255, 255]).events.length ≤ 9 ∧
    ((Psram.psram_init 133000000 Psram.sampleTable [255, 255, 255]).events.all
      Psram.delayBounded) = true ∧
    (Psram.psram_init 133000000 Psram.sampleTable [255, 255, 255]).outcome =
      Except.error Psram.PsramHalt.deviceNotFound := by
  have h := psram_init_terminates_bounded 133000000 Psram.sampleTable [255, 255, 255]
  exact ⟨h.1, h.2.1, h.2.2 (by decide)⟩

/-- C4: in `main`, the `psram_init` call occurs exactly once (never in
the blink loop), strictly before the allocator is initialized over the
window, and the allocator initialization occurs strictly before the
first heap allocation. -/
theorem main_psram_init_once_ordered (psramSize : Nat) :
    (Main.mainPrologue psramSize).countP Main.isPsramCall = 1 ∧
    Main.mainLoopBody.countP Main.isPsramCall = 0 ∧
    (Main.mainPrologue psramSize).findIdx Main.isPsramCall <
      (Main.mainPrologue psramSize).findIdx Main.isAllocInit ∧
    (Main.mainPrologue psramSize).findIdx Main.isAllocInit <
      (Main.mainPrologue psramSize).findIdx Main.isHeapAlloc :=
  ⟨rfl, rfl, Nat.lt_of_sub_eq_succ rfl, Nat.lt_of_sub_eq_succ rfl⟩

/-- C5 counterexample: at the call site in `main` both controller
register blocks are passed as `&` shared references, contradicting the
claim that they are never passed by shared reference. -/
theorem psram_call_shared_borrow :
    Main.psramInitCallSite.qmi.pass = Main.PassMode.bySharedBorrow ∧
    Main.psramInitCallSite.xipCtrl.pass = Main.PassMode.bySharedBorrow :=
  ⟨rfl, rfl⟩

/-- C5 amended: both register blocks come from the platform's
take-singleton mechanism, they are passed as shared references
(`&pac.QMI`, `&pac.XIP_CTRL`), and no other step of `main` accesses the
QMI or XIP_CTRL registers, so no other live reference aliases them
during the call. -/
theorem psram_call_singleton_unaliased (psramSize : Nat) :
    Main.psramInitCallSite.qmi.source =
      Main.RegArgSource.peripheralsTakeSingleton ∧
    Main.psramInitCallSite.xipCtrl.source =
      Main.RegArgSource.peripheralsTakeSingleton ∧
    Main.psramInitCallSite.qmi.pass = Main.PassMode.bySharedBorrow ∧
    Main.psramInitCallSite.xipCtrl.pass = Main.PassMode.bySharedBorrow ∧
    (Main.mainPrologue psramSize).countP Main.accessesControllerRegs = 1 ∧
    Main.mainLoopBody.countP Main.accessesControllerRegs = 0 :=
  ⟨rfl, rfl, rfl, rfl, rfl, rfl⟩

/-- C7: the global allocator starts as `Heap::empty()`, and no step of
`main` up to and including the `psram_init` call initializes the
allocator or performs a heap allocation, so no dynamic allocation occurs
inside the initialization component. -/
theorem main_no_alloc_during_psram_init (psramSize : Nat) :
    Main.ALLOCATOR = Main.HeapState.empty ∧
    (((Main.mainPrologue psramSize).take
        ((Main.mainPrologue psramSize).findIdx Main.isAllocInit)).all
      (fun e => !Main.isHeapAlloc e)) = true ∧
    (((Main.mainPrologue psramSize).take
        ((Main.mainPrologue psramSize).findIdx Main.isAllocInit)).all
      (fun e => !Main.isAllocInit e)) = true ∧
    (Main.mainPrologue psramSize).findIdx Main.isPsramCall <
      (Main.mainPrologue psramSize).findIdx Main.isAllocInit :=
  ⟨rfl, rfl, rfl, Nat.lt_of_sub_eq_succ rfl⟩

/-- C8: GPIO47 is multiplexed to the XIP CS1 memory-interface function
strictly before the `psram_init` call in `main`. -/
theorem main_cs_pin_before_psram_init (psramSize : Nat) :
    (Main.mainPrologue psramSize).countP Main.isXipCs1PinSetup = 1 ∧
    (Main.mainPrologue psramSize).findIdx Main.isXipCs1PinSetup <
      (Main.mainPrologue psramSize).findIdx Main.isPsramCall :=
  ⟨rfl, Nat.lt_of_sub_eq_succ rfl⟩

/-- C9: the clock-frequency argument of the `psram_init` call is the
peripheral clock frequency in Hz read from the clocks structure, and the
successful `init_clocks_and_plls` step precedes the call in `main`. -/
theorem main_freq_from_peripheral_clock (psramSize : Nat) :
    Main.psramInitCallSite.freqSource = Main.FreqArgSource.peripheralClockHz ∧
    (Main.mainPrologue psramSize).findIdx Main.isClocksInit <
      (Main.mainPrologue psramSize).findIdx Main.isPsramCall :=
  ⟨rfl, Nat.lt_of_sub_eq_succ rfl⟩

/-- C10: the only allocator initialization in `main` hands the allocator
exactly the window at base 0x11000000 with the size returned by
`psram_init`, unmodified. -/
theorem main_heap_is_returned_window (psramSize : Nat) :
    (Main.mainPrologue psramSize).filter Main.isAllocInit =
      [Main.MainStep.allocatorInit 0x11000000 psramSize] :=
  rfl
